import Mathlib

/-!
Verification of the MadAgents synchronization-protocol client against its
specification.  The definitions below are a shallow embedding of the
relevant source functions:

* the plan tracker of the frontend library module (getPlanStats file):
  parsePlanMetaTimestamp, normalizePlanStatus, buildPlanMetaMap,
  buildPlanStatusMap, getUpdatedPlanSteps;
* the session client of CopyButtons.jsx: handleEventData, the derived
  flags (currentThreadKey, isActiveHere, isLoading, blockNewMessages,
  rewindDisabled, currentRewindStatus), sendMessage, confirmRewindEdit,
  and the cursor handling of reloadHistory and connectEventSource;
* the rewind affordance of MessageList.

JavaScript maps and objects used as dictionaries are modelled as
association lists where a later insertion shadows an earlier one; the
absent or null value of a field is modelled with Option.  Timestamp
strings are modelled by whether the host Date.parse call yields a finite
number, which is the only property the source reads from them.
-/

/-- A string-keyed dictionary (a JavaScript Map or a plain object used as a
map).  An insertion conses in front, so a later insertion for the same key
shadows an earlier one, matching Map.set and object-spread update. -/
abbrev KVMap (α : Type) := List (String × α)

/-- Map insertion: Map.set or object-spread update with a computed key. -/
def kvSet {α : Type} (m : KVMap α) (k : String) (v : α) : KVMap α :=
  (k, v) :: m

/-- Map lookup: Map.get or bracket access; undefined is modelled as none. -/
def kvGet {α : Type} (m : KVMap α) (k : String) : Option α :=
  (m.find? (fun p => p.1 == k)).map Prod.snd

/-- The last_updated field of a plan step, as seen by parsePlanMetaTimestamp:
either falsy (null, undefined or the empty string), a string on which the
host Date.parse yields NaN, or a string parsing to a finite millisecond
value. -/
inductive TsField where
  | absent
  | unparseable
  | parsed (ms : Int)
deriving DecidableEq

/-- A plan step as read by the plan tracker.  Only the fields the source
functions access are carried: id (already stringified; none models a null
or undefined id), status, and last_updated.  The title stands in for the
remaining presentational fields. -/
structure PlanStep where
  id : Option String
  title : String
  status : Option String
  last_updated : TsField
deriving DecidableEq

/-- A plan or plan-meta-data object: an ordered list of steps. -/
structure PlanData where
  steps : List PlanStep
deriving DecidableEq

/-- The steps array of a possibly-null plan object: plan?.steps when it is
an array, otherwise the empty list. -/
def stepsOf (p : Option PlanData) : List PlanStep :=
  match p with
  | some d => d.steps
  | none => []

/-- parsePlanMetaTimestamp from the plan tracker: null for a falsy value or
a non-finite Date.parse result, otherwise the parsed millisecond value. -/
def parsePlanMetaTimestamp : TsField → Option Int
  | .absent => none
  | .unparseable => none
  | .parsed ms => some ms

/-- normalizePlanStatus from the plan tracker: the empty string for null or
undefined, otherwise the lowercased string value (character-wise
lowercasing, as toLowerCase acts on the status words). -/
def normalizePlanStatus (value : Option String) : String :=
  match value with
  | none => ""
  | some s => ⟨s.data.map Char.toLower⟩

/-- Timestamp map from step id to parsed last_updated. -/
abbrev MetaMap := KVMap Int

/-- Status map from step id to normalized status. -/
abbrev StatusMap := KVMap String

/-- One iteration of the forEach loop of buildPlanMetaMap: skip a step with
a null id or an unparseable timestamp, otherwise record the timestamp. -/
def planMetaInsert (m : MetaMap) (step : PlanStep) : MetaMap :=
  match step.id with
  | none => m
  | some sid =>
    match parsePlanMetaTimestamp step.last_updated with
    | none => m
    | some ts => kvSet m sid ts

/-- The forEach loop of buildPlanMetaMap over the step list. -/
def buildPlanMetaMapGo : List PlanStep → MetaMap → MetaMap
  | [], m => m
  | step :: rest, m => buildPlanMetaMapGo rest (planMetaInsert m step)

/-- buildPlanMetaMap from the plan tracker: map each step id with a
parseable last_updated to its parsed timestamp. -/
def buildPlanMetaMap (planMetaData : Option PlanData) : MetaMap :=
  buildPlanMetaMapGo (stepsOf planMetaData) []

/-- One iteration of the forEach loop of buildPlanStatusMap. -/
def planStatusInsert (m : StatusMap) (step : PlanStep) : StatusMap :=
  match step.id with
  | none => m
  | some sid => kvSet m sid (normalizePlanStatus step.status)

/-- The forEach loop of buildPlanStatusMap over the step list. -/
def buildPlanStatusMapGo : List PlanStep → StatusMap → StatusMap
  | [], m => m
  | step :: rest, m => buildPlanStatusMapGo rest (planStatusInsert m step)

/-- buildPlanStatusMap from the plan tracker: map each step id to its
normalized status. -/
def buildPlanStatusMap (plan : Option PlanData) : StatusMap :=
  buildPlanStatusMapGo (stepsOf plan) []

/-- The filter callback inside getUpdatedPlanSteps, deciding whether a step
of the current plan counts as updated. -/
def planStepUpdated (metaMap : MetaMap) (statusMap : StatusMap)
    (previousMetaMap : MetaMap) (previousStatusMap : Option StatusMap)
    (step : PlanStep) : Bool :=
  match step.id with
  | none => false
  | some sid =>
    match kvGet metaMap sid with
    | none => false
    | some current =>
      match kvGet previousMetaMap sid with
      | none => true
      | some previous =>
        if current ≤ previous then false
        else
          let previousStatus := previousStatusMap.bind (fun m => kvGet m sid)
          let currentStatus := kvGet statusMap sid
          !(previousStatus == some "blocked" && currentStatus == some "pending")

/-- The result record of getUpdatedPlanSteps. -/
structure UpdatedPlanResult where
  updatedSteps : List PlanStep
  metaMap : MetaMap
  statusMap : StatusMap
deriving DecidableEq

/-- getUpdatedPlanSteps from the plan tracker: with no previous meta map
the delta is empty; otherwise the current steps are filtered by
planStepUpdated. -/
def getUpdatedPlanSteps (plan planMetaData : Option PlanData)
    (previousMetaMap : Option MetaMap) (previousStatusMap : Option StatusMap) :
    UpdatedPlanResult :=
  let steps := stepsOf plan
  let metaMap := buildPlanMetaMap planMetaData
  let statusMap := buildPlanStatusMap plan
  match previousMetaMap with
  | none => ⟨[], metaMap, statusMap⟩
  | some prevMeta =>
    ⟨steps.filter (planStepUpdated metaMap statusMap prevMeta previousStatusMap),
     metaMap, statusMap⟩

/-- Definition following the words of the specification, for comparison
with getUpdatedPlanSteps: the delta holds exactly the steps whose
last_updated timestamp increased since the previous snapshot (a parsed
timestamp on both sides, strictly larger now), excluding a step whose
status transitioned from blocked to pending. -/
def specDeltaSteps (plan planMetaData : Option PlanData)
    (previousMetaMap : MetaMap) (previousStatusMap : StatusMap) :
    List PlanStep :=
  let metaMap := buildPlanMetaMap planMetaData
  let statusMap := buildPlanStatusMap plan
  (stepsOf plan).filter (fun step =>
    match step.id with
    | none => false
    | some sid =>
      match kvGet metaMap sid, kvGet previousMetaMap sid with
      | some current, some previous =>
        decide (previous < current) &&
          !(kvGet previousStatusMap sid == some "blocked" &&
            kvGet statusMap sid == some "pending")
      | _, _ => false)

/-- A message as delivered inside a message_update or history_reset event
payload.  A none name models a missing name (mapped to assistant); the
can_rewind_before flag is modelled by its JavaScript truthiness. -/
structure EventMsg where
  name : Option String
  content : String
  add_content : Option String
  message_index : Option Int
  can_rewind_before : Bool
deriving DecidableEq

/-- A message held in the client message list, after the projection applied
by handleEventData.  The add_content annotation payload is opaque to the
claims and carried uninterpreted. -/
structure Msg where
  name : String
  content : String
  add_content : Option String
  message_index : Option Int
  can_rewind_before : Bool
deriving DecidableEq

/-- The per-message projection inside handleEventData for message_update
and history_reset events: a falsy name becomes assistant and the remaining
fields are copied. -/
def normalizeEventMsg (m : EventMsg) : Msg :=
  { name := match m.name with
            | some s => if s == "" then "assistant" else s
            | none => "assistant"
    content := m.content
    add_content := m.add_content
    message_index := m.message_index
    can_rewind_before := m.can_rewind_before }

/-- The activeRun state value: both fields null when no run is active. -/
structure ActiveRunView where
  threadId : Option String
  name : Option String
deriving DecidableEq

/-- The client state touched by the embedded handlers of CopyButtons.jsx:
the message list, the per-thread rewind status map, the error banners, the
stream-error flag, the set of loading threads, the active-run view, the
selected thread, the pending run id, the rewind edit index, the
in-flight-rewind flag, and the event cursor. -/
structure ClientState where
  messages : List Msg
  rewindStatusByThread : KVMap String
  errorMsg : String
  rewindError : String
  streamError : Bool
  loading : List String
  activeRun : ActiveRunView
  selectedThreadId : Option String
  pendingRunId : Option String
  rewindEditIndex : Option Int
  isRewinding : Bool
  eventCursor : Int
deriving DecidableEq

/-- A server-sent event payload as dispatched on by handleEventData. -/
inductive EventData where
  | message_update (messages : List EventMsg)
  | history_reset (messages : List EventMsg)
  | rewind_status (status : Option String)
  | rewind_update (rewindable_indices : List Int)
  | error (error : Option String)
  | interrupted
  | done
deriving DecidableEq

/-- The error text chosen by the error branch of handleEventData: the error
field of the event unless it is falsy. -/
def errorTextOrDefault (e : Option String) : String :=
  match e with
  | some s => if s == "" then "Unknown error from server" else s
  | none => "Unknown error from server"

/-- The setActiveRun updater used by the interrupted and done branches:
clear the view only when it currently names the given thread. -/
def releaseActiveRunIfMatches (ar : ActiveRunView) (threadId : String) :
    ActiveRunView :=
  if ar.threadId == some threadId then { threadId := none, name := none } else ar

/-- setThreadLoading from CopyButtons.jsx: with a falsy thread id do
nothing, otherwise mark or unmark the thread as loading. -/
def setThreadLoading (loading : List String) (threadId : String)
    (value : Bool) : List String :=
  if threadId == "" then loading
  else if value then
    (if loading.contains threadId then loading else loading ++ [threadId])
  else loading.filter (fun t => t != threadId)

/-- The per-message updater of the rewind_update branch: an end-user
message with a numeric index gets can_rewind_before set to membership of
its index in the rewindable set; every other message is left unchanged. -/
def applyRewindUpdate (indices : List Int) (m : Msg) : Msg :=
  match m.message_index with
  | some idx =>
    if m.name == "user" then { m with can_rewind_before := indices.contains idx }
    else m
  | none => m

/-- handleEventData from CopyButtons.jsx, as a transition on the client
state.  The fetchRuns and reloadHistory network calls fired by the done
branch are external requests and are modelled separately (reloadHistory by
reloadNextCursor and connectFromIdx below). -/
def handleEventData (eventData : EventData) (threadId : String)
    (s : ClientState) : ClientState :=
  if threadId == "" then s
  else
    match eventData with
    | .message_update msgs =>
        { s with messages := s.messages ++ msgs.map normalizeEventMsg }
    | .history_reset msgs =>
        { s with messages := msgs.map normalizeEventMsg }
    | .rewind_status status =>
        { s with rewindStatusByThread :=
            kvSet s.rewindStatusByThread threadId (status.getD "pending") }
    | .rewind_update indices =>
        { s with
            messages := s.messages.map (applyRewindUpdate indices)
            rewindStatusByThread := kvSet s.rewindStatusByThread threadId "ready" }
    | .error err =>
        { s with
            streamError := true
            errorMsg := errorTextOrDefault err
            loading := setThreadLoading s.loading threadId false }
    | .interrupted =>
        { s with
            loading := setThreadLoading s.loading threadId false
            activeRun := releaseActiveRunIfMatches s.activeRun threadId }
    | .done =>
        let s1 := { s with
            loading := setThreadLoading s.loading threadId false
            activeRun := releaseActiveRunIfMatches s.activeRun threadId }
        let s2 := if s1.streamError then s1 else { s1 with errorMsg := "" }
        { s2 with streamError := false }

/-- currentThreadKey: the selected thread id or the sentinel. -/
def currentThreadKey (s : ClientState) : String :=
  s.selectedThreadId.getD "-1"

/-- isActiveHere: the active-run view names a truthy thread equal to the
current thread key. -/
def isActiveHere (s : ClientState) : Bool :=
  match s.activeRun.threadId with
  | some t => t != "" && t == currentThreadKey s
  | none => false

/-- isLoading: the current thread is marked loading or the active run is
here. -/
def isLoading (s : ClientState) : Bool :=
  s.loading.contains (currentThreadKey s) || isActiveHere s

/-- blockNewMessages: some other thread holds the active run. -/
def blockNewMessages (s : ClientState) : Bool :=
  match s.activeRun.threadId with
  | some t => t != "" && t != currentThreadKey s
  | none => false

/-- rewindDisabled from CopyButtons.jsx: loading here or blocked by a run
elsewhere.  The recorded rewind status is not consulted. -/
def rewindDisabled (s : ClientState) : Bool :=
  isLoading s || blockNewMessages s

/-- currentRewindStatus: the recorded status of the selected thread with a
pending default, or null with no real selection. -/
def currentRewindStatus (s : ClientState) : Option String :=
  match s.selectedThreadId with
  | some t =>
    if t != "" && t != "-1" then
      some (match kvGet s.rewindStatusByThread t with
            | some v => if v == "" then "pending" else v
            | none => "pending")
    else none
  | none => none

/-- canRewind from MessageList: the rewind affordance is shown exactly for
an end-user message whose can_rewind_before flag is truthy. -/
def canRewind (m : Msg) : Bool :=
  m.name == "user" && m.can_rewind_before

/-- The conflict payload of a 409 response, after the null-coalescing
detail extraction. -/
structure ConflictDetail where
  active_thread_id : Option String
  active_run_name : Option String
deriving DecidableEq

/-- The response observed by sendMessage or confirmRewindEdit: a 409
conflict with its payload, a success payload, or another failing status
with an optional detail string. -/
inductive ApiResponse where
  | conflict (detail : ConflictDetail)
  | ok (thread_id : Option String)
  | httpError (status : Nat) (detail : Option String)
deriving DecidableEq

/-- The outcome of a request handler: the resulting client state plus the
follow-up network requests it issues. -/
structure ActionResult where
  state : ClientState
  actions : List String
deriving DecidableEq

/-- A whitespace character as stripped by the JavaScript trim call. -/
def isJsSpace (c : Char) : Bool :=
  c == ' ' || c == '\t' || c == '\n' || c == '\r'

/-- The trim call of the handlers: strip leading and trailing whitespace
(character-list implementation of the host trim). -/
def jsTrim (s : String) : String :=
  ⟨((s.data.dropWhile isJsSpace).reverse.dropWhile isJsSpace).reverse⟩

/-- The fallback chain of the busy label when no usable run name exists. -/
def busyLabelFallback (tid : Option String) : String :=
  match tid with
  | some t => if t != "" then t else "another run"
  | none => "another run"

/-- The busy label of the 409 branches: the trimmed active run name when
truthy, else the active thread id when truthy, else a generic label. -/
def busyLabel (d : ConflictDetail) : String :=
  match d.active_run_name with
  | some n => if jsTrim n != "" then jsTrim n else busyLabelFallback d.active_thread_id
  | none => busyLabelFallback d.active_thread_id

/-- The conditional setActiveRun of the 409 branches: adopt the blocking
identity only when the reported thread id is truthy. -/
def applyConflictActiveRun (s : ClientState) (d : ConflictDetail) : ClientState :=
  match d.active_thread_id with
  | some t =>
    if t != "" then
      { s with activeRun := { threadId := some t, name := d.active_run_name } }
    else s
  | none => s

/-- The optimistic user message appended by sendMessage before the request:
only name and content are set. -/
def userMessage (prompt : String) : Msg :=
  { name := "user", content := prompt, add_content := none,
    message_index := none, can_rewind_before := false }

/-- moveThreadLoading from CopyButtons.jsx: transfer a loading mark from
one thread id to another. -/
def moveThreadLoading (loading : List String) (fromThreadId toThreadId : String) :
    List String :=
  if fromThreadId == "" || toThreadId == "" || fromThreadId == toThreadId then
    loading
  else if !(loading.contains fromThreadId) then loading
  else
    let removed := loading.filter (fun t => t != fromThreadId)
    if removed.contains toThreadId then removed else removed ++ [toThreadId]

/-- The error banner text produced by reportResponseError: the detail
string of the response body when truthy, else the fallback with the
numeric status. -/
def reportResponseErrorText (fallbackMessage : String) (status : Nat)
    (detail : Option String) : String :=
  match detail with
  | some d =>
    if d != "" then fallbackMessage ++ ": " ++ d
    else fallbackMessage ++ " (" ++ toString status ++ ")"
  | none => fallbackMessage ++ " (" ++ toString status ++ ")"

/-- sendMessage from CopyButtons.jsx, as a function of the state, the
prompt, and the response of the single POST to the chat route.  The
actions list records the follow-up requests issued after the response. -/
def sendMessage (s : ClientState) (prompt : String) (response : ApiResponse) :
    ActionResult :=
  if isLoading s then ⟨s, []⟩
  else if blockNewMessages s then ⟨s, []⟩
  else if jsTrim prompt == "" then ⟨s, []⟩
  else
    let s0 := { s with rewindEditIndex := none, rewindError := "" }
    let threadId := currentThreadKey s0
    let isNewRun := threadId == "-1"
    let s1 := { s0 with messages := s0.messages ++ [userMessage prompt] }
    let s2 := { s1 with
        streamError := false
        errorMsg := ""
        loading := setThreadLoading s1.loading threadId true }
    match response with
    | .conflict d =>
        let s3 := applyConflictActiveRun s2 d
        let s4 := { s3 with
            errorMsg := "Run " ++ busyLabel d ++ " is already running."
            loading := setThreadLoading s3.loading threadId false }
        ⟨s4, []⟩
    | .ok tid =>
        let nextThreadId :=
          match tid with
          | some t => if t != "" then t else threadId
          | none => threadId
        if isNewRun then
          let s3 := { s2 with
              eventCursor := 0
              selectedThreadId := some nextThreadId
              pendingRunId := some nextThreadId
              loading := moveThreadLoading s2.loading threadId nextThreadId }
          ⟨s3, ["fetchRuns"]⟩
        else ⟨s2, []⟩
    | .httpError status _ =>
        let s3 := { s2 with
            errorMsg := "Request failed with status " ++ toString status
            loading := setThreadLoading s2.loading threadId false }
        ⟨s3, []⟩

/-- confirmRewindEdit from CopyButtons.jsx, as a function of the state,
the target message index, the draft text, and the response of the single
POST to the rewind route.  The isRewinding flag is true only during the
request, so the final state has it reset.  On success the handler reloads
the history of the (still selected) thread, recorded as an action. -/
def confirmRewindEdit (s : ClientState) (messageIndex : Option Int)
    (draft : String) (response : ApiResponse) : ActionResult :=
  match messageIndex with
  | none => ⟨s, []⟩
  | some _ =>
    if rewindDisabled s || s.isRewinding then ⟨s, []⟩
    else
      match s.selectedThreadId with
      | none => ⟨{ s with rewindError := "Select a run before rewinding." }, []⟩
      | some threadId =>
        if threadId == "" || threadId == "-1" then
          ⟨{ s with rewindError := "Select a run before rewinding." }, []⟩
        else
          let trimmed := jsTrim draft
          if trimmed == "" then
            ⟨{ s with rewindError := "Message cannot be empty." }, []⟩
          else
            let s0 := { s with
                isRewinding := true
                rewindError := ""
                errorMsg := ""
                streamError := false }
            match response with
            | .conflict d =>
                let s1 := applyConflictActiveRun s0 d
                let s2 := { s1 with
                    rewindError := "Run " ++ busyLabel d ++ " is already running." }
                ⟨{ s2 with isRewinding := false }, []⟩
            | .ok _ =>
                let s1 := { s0 with
                    rewindEditIndex := none
                    rewindError := ""
                    loading := setThreadLoading s0.loading threadId true }
                ⟨{ s1 with isRewinding := false }, ["reloadHistory"]⟩
            | .httpError status detail =>
                let s1 := { s0 with
                    errorMsg := reportResponseErrorText "Failed to rewind" status detail }
                ⟨{ s1 with isRewinding := false }, []⟩

/-- The cursor chosen by reloadHistory after the history response: the
event_cursor of the snapshot when it is a finite number, else the stored
cursor. -/
def reloadNextCursor (eventCursor : Option Int) (storedCursor : Int) : Int :=
  match eventCursor with
  | some c => c
  | none => storedCursor

/-- The from_idx query parameter set by connectEventSource. -/
def connectFromIdx (fromCursor : Int) : Int :=
  max 0 fromCursor

/-- An event of the per-thread stream: its cursor and its payload. -/
structure SpecEvent where
  cursor : Int
  kind : String
  payload : String
deriving DecidableEq

/-- Modelled from the spec: the subscribe operation of the Event Bus, whose
implementation is not part of the frontend sources.  Per the contract,
subscribe(thread_id, from_cursor) yields the ordered stream of events with
cursor at least from_cursor, never skipping or duplicating. -/
def subscribeDeliver (events : List SpecEvent) (fromCursor : Int) :
    List SpecEvent :=
  events.filter (fun e => decide (fromCursor ≤ e.cursor))

/-- Previous plan of the plan-delta scenario: step a is blocked and its
meta timestamp fails to parse. -/
def cePrevPlan : PlanData :=
  ⟨[{ id := some "a", title := "Step A", status := some "blocked",
      last_updated := .unparseable }]⟩

/-- Previous plan meta data of the scenario: the timestamp of step a is
unparseable, so the previous meta map has no entry for it. -/
def cePrevMeta : PlanData :=
  ⟨[{ id := some "a", title := "Step A", status := some "blocked",
      last_updated := .unparseable }]⟩

/-- Current version of step a: now pending. -/
def ceStep : PlanStep :=
  { id := some "a", title := "Step A", status := some "pending",
    last_updated := .absent }

/-- Current plan of the scenario. -/
def ceCurPlan : PlanData := ⟨[ceStep]⟩

/-- Current plan meta data of the scenario: step a now has a parsed
timestamp. -/
def ceCurMeta : PlanData :=
  ⟨[{ id := some "a", title := "Step A", status := some "pending",
      last_updated := .parsed 100 }]⟩

/-- Step b of the plan-delta witness scenario: in progress in the current
plan. -/
def wStep : PlanStep :=
  { id := some "b", title := "Step B", status := some "in_progress",
    last_updated := .absent }

/-- Current plan of the witness scenario. -/
def wCurPlan : PlanData := ⟨[wStep]⟩

/-- Current plan meta data of the witness scenario: step b parsed at
millisecond 200. -/
def wCurMeta : PlanData :=
  ⟨[{ id := some "b", title := "Step B", status := some "in_progress",
      last_updated := .parsed 200 }]⟩

/-- Previous plan of the witness scenario: step b was pending. -/
def wPrevPlan : PlanData :=
  ⟨[{ id := some "b", title := "Step B", status := some "pending",
      last_updated := .parsed 100 }]⟩

/-- Previous plan meta data of the witness scenario: step b parsed at
millisecond 100. -/
def wPrevMeta : PlanData :=
  ⟨[{ id := some "b", title := "Step B", status := some "pending",
      last_updated := .parsed 100 }]⟩

/-- A quiescent client state on thread t1: nothing loading, no active run,
no recorded rewind status. -/
def baseClientState : ClientState :=
  { messages := [], rewindStatusByThread := [], errorMsg := "",
    rewindError := "", streamError := false, loading := [],
    activeRun := { threadId := none, name := none },
    selectedThreadId := some "t1", pendingRunId := none,
    rewindEditIndex := none, isRewinding := false, eventCursor := 0 }

/-- A state in which the active-run view names thread t1 and t1 is marked
loading, as while a run of t1 is executing. -/
def activeRunState : ClientState :=
  { baseClientState with
      activeRun := { threadId := some "t1", name := some "run one" },
      loading := ["t1"] }

/-- Concrete event messages used to instantiate the event-handling
theorems. -/
def wEventMsgs : List EventMsg :=
  [{ name := none, content := "hello", add_content := none,
     message_index := some 0, can_rewind_before := false },
   { name := some "user", content := "question", add_content := none,
     message_index := some 1, can_rewind_before := true }]

/-- A concrete end-user message at index 2. -/
def wUserMsg : Msg :=
  { name := "user", content := "question", add_content := none,
    message_index := some 2, can_rewind_before := false }

/-- A concrete orchestrator message at index 3. -/
def wOrchMsg : Msg :=
  { name := "orchestrator", content := "reply", add_content := none,
    message_index := some 3, can_rewind_before := true }

theorem kvGet_cons {α : Type} (k1 : String) (v1 : α) (m : KVMap α) (k : String) :
    kvGet ((k1, v1) :: m) k = if k1 == k then some v1 else kvGet m k := by
  cases h : k1 == k <;> simp [kvGet, List.find?, h]

theorem kvGet_buildPlanMetaMapGo (steps : List PlanStep) :
    ∀ (m : MetaMap) (k : String) (v : Int),
      kvGet (buildPlanMetaMapGo steps m) k = some v →
      (∃ e ∈ steps, e.id = some k ∧ parsePlanMetaTimestamp e.last_updated = some v) ∨
        kvGet m k = some v := by
  induction steps with
  | nil => intro m k v h; exact Or.inr h
  | cons e rest ih =>
    intro m k v h
    rcases ih (planMetaInsert m e) k v h with h1 | h2
    · obtain ⟨x, hx, hid, hts⟩ := h1
      exact Or.inl ⟨x, List.mem_cons_of_mem _ hx, hid, hts⟩
    · unfold planMetaInsert at h2
      cases hid : e.id with
      | none => rw [hid] at h2; exact Or.inr h2
      | some sid =>
        rw [hid] at h2
        cases hts : parsePlanMetaTimestamp e.last_updated with
        | none => rw [hts] at h2; exact Or.inr h2
        | some ts =>
          rw [hts] at h2
          unfold kvSet at h2
          rw [kvGet_cons] at h2
          cases hk : sid == k with
          | false => rw [hk] at h2; simp at h2; exact Or.inr h2
          | true =>
            rw [hk] at h2
            simp at h2
            refine Or.inl ⟨e, List.mem_cons_self _ _, ?_, ?_⟩
            · rw [hid, eq_of_beq hk]
            · rw [hts, h2]

theorem planStepUpdated_eq_true_iff (metaMap : MetaMap) (statusMap : StatusMap)
    (prevMeta : MetaMap) (prevStatusOpt : Option StatusMap) (step : PlanStep) :
    planStepUpdated metaMap statusMap prevMeta prevStatusOpt step = true ↔
      ∃ sid current, step.id = some sid ∧ kvGet metaMap sid = some current ∧
        (kvGet prevMeta sid = none ∨
          ∃ previous, kvGet prevMeta sid = some previous ∧ previous < current ∧
            ¬(prevStatusOpt.bind (fun m => kvGet m sid) = some "blocked" ∧
              kvGet statusMap sid = some "pending")) := by
  unfold planStepUpdated
  cases hid : step.id with
  | none => simp
  | some sid =>
    cases hcur : kvGet metaMap sid with
    | none => simp [hcur]
    | some current =>
      cases hprev : kvGet prevMeta sid with
      | none => simp [hcur, hprev]
      | some previous =>
        by_cases hle : current ≤ previous
        · simp [hcur, hprev, hle]
        · have hlt : previous < current := lt_of_not_ge hle
          simp [hcur, hprev, hle, hlt]
          tauto

theorem filter_cursor_length_one (l : List SpecEvent)
    (hmono : l.Pairwise (fun a b => a.cursor < b.cursor)) :
    ∀ e ∈ l, (l.filter (fun x => decide (x.cursor = e.cursor))).length = 1 := by
  induction l with
  | nil => intro e he; cases he
  | cons a t ih =>
    intro e he
    rw [List.pairwise_cons] at hmono
    obtain ⟨ha, ht⟩ := hmono
    rcases List.mem_cons.mp he with rfl | het
    · have hnil : t.filter (fun x => decide (x.cursor = e.cursor)) = [] := by
        apply List.filter_eq_nil_iff.mpr
        intro x hx
        have hlt := ha x hx
        simp
        omega
      have hcons : (e :: t).filter (fun x => decide (x.cursor = e.cursor)) =
          e :: t.filter (fun x => decide (x.cursor = e.cursor)) := by
        simp [List.filter_cons]
      rw [hcons, hnil]
      rfl
    · have hlt := ha e het
      have hne : a.cursor ≠ e.cursor := by omega
      have hcons : (a :: t).filter (fun x => decide (x.cursor = e.cursor)) =
          t.filter (fun x => decide (x.cursor = e.cursor)) := by
        simp [List.filter_cons, hne]
      rw [hcons]
      exact ih ht e het

/-- C1: a history snapshot returning event cursor C makes the client
subscribe from exactly from_idx = max(0, C) = C, and, under the pairing
guarantee of the spec-modelled Event Bus, every event published at cursor
at least C after the snapshot is delivered exactly once, none skipped,
none duplicated. -/
theorem claim1_snapshot_subscribe_pairing
    (snapshotCursor storedCursor : Int) (events : List SpecEvent)
    (hnonneg : 0 ≤ snapshotCursor)
    (hmono : events.Pairwise (fun a b => a.cursor < b.cursor))
    (hafter : ∀ e ∈ events, snapshotCursor ≤ e.cursor) :
    connectFromIdx (reloadNextCursor (some snapshotCursor) storedCursor) =
        snapshotCursor ∧
    subscribeDeliver events
        (connectFromIdx (reloadNextCursor (some snapshotCursor) storedCursor)) =
      events ∧
    ∀ e ∈ subscribeDeliver events
        (connectFromIdx (reloadNextCursor (some snapshotCursor) storedCursor)),
      ((subscribeDeliver events
          (connectFromIdx (reloadNextCursor (some snapshotCursor) storedCursor))).filter
          (fun x => decide (x.cursor = e.cursor))).length = 1 := by
  have hfrom : connectFromIdx (reloadNextCursor (some snapshotCursor) storedCursor) =
      snapshotCursor := by
    simp [connectFromIdx, reloadNextCursor, max_eq_right hnonneg]
  have hdel : subscribeDeliver events snapshotCursor = events := by
    apply List.filter_eq_self.mpr
    intro e he
    simpa using hafter e he
  refine ⟨hfrom, ?_, ?_⟩
  · rw [hfrom]; exact hdel
  · rw [hfrom, hdel]
    exact filter_cursor_length_one events hmono

/-- Witness for C1 at a concrete snapshot cursor and event list. -/
theorem claim1_witness :
    connectFromIdx (reloadNextCursor (some 2) 7) = 2 ∧
    subscribeDeliver [⟨2, "message_update", "a"⟩, ⟨3, "done", "b"⟩]
        (connectFromIdx (reloadNextCursor (some 2) 7)) =
      [⟨2, "message_update", "a"⟩, ⟨3, "done", "b"⟩] ∧
    ∀ e ∈ subscribeDeliver [⟨2, "message_update", "a"⟩, ⟨3, "done", "b"⟩]
        (connectFromIdx (reloadNextCursor (some 2) 7)),
      ((subscribeDeliver [⟨2, "message_update", "a"⟩, ⟨3, "done", "b"⟩]
          (connectFromIdx (reloadNextCursor (some 2) 7))).filter
          (fun x => decide (x.cursor = e.cursor))).length = 1 :=
  claim1_snapshot_subscribe_pairing 2 7
    [⟨2, "message_update", "a"⟩, ⟨3, "done", "b"⟩]
    (by decide) (by decide) (by decide)

/-- C2 counterexample: at a concrete pair of snapshots, the computed delta
differs from the set described by the specification sentence.  Step a has
no parsed timestamp in the previous snapshot, so its timestamp did not
increase, and its status moreover went from blocked to pending; the code
still reports it. -/
theorem claim2_counterexample :
    (getUpdatedPlanSteps (some ceCurPlan) (some ceCurMeta)
        (some (buildPlanMetaMap (some cePrevMeta)))
        (some (buildPlanStatusMap (some cePrevPlan)))).updatedSteps ≠
      specDeltaSteps (some ceCurPlan) (some ceCurMeta)
        (buildPlanMetaMap (some cePrevMeta))
        (buildPlanStatusMap (some cePrevPlan)) := by decide

/-- C2 (amended): the computed delta contains exactly the current plan
steps with a non-null id and a parsed current timestamp that are either
absent from the previous meta map, or have a strictly increased timestamp
and did not transition from blocked to pending. -/
theorem claim2_delta_characterization (plan planMetaData : Option PlanData)
    (prevMeta : MetaMap) (prevStatus : Option StatusMap) (step : PlanStep) :
    step ∈ (getUpdatedPlanSteps plan planMetaData (some prevMeta) prevStatus).updatedSteps ↔
      step ∈ stepsOf plan ∧
      ∃ sid current, step.id = some sid ∧
        kvGet (buildPlanMetaMap planMetaData) sid = some current ∧
        (kvGet prevMeta sid = none ∨
          ∃ previous, kvGet prevMeta sid = some previous ∧ previous < current ∧
            ¬(prevStatus.bind (fun m => kvGet m sid) = some "blocked" ∧
              kvGet (buildPlanStatusMap plan) sid = some "pending")) := by
  have hrepr : (getUpdatedPlanSteps plan planMetaData (some prevMeta) prevStatus).updatedSteps =
      (stepsOf plan).filter
        (planStepUpdated (buildPlanMetaMap planMetaData)
          (buildPlanStatusMap plan) prevMeta prevStatus) := rfl
  rw [hrepr, List.mem_filter, planStepUpdated_eq_true_iff]

/-- Witness for C2 at the concrete witness snapshots. -/
theorem claim2_witness :
    wStep ∈ (getUpdatedPlanSteps (some wCurPlan) (some wCurMeta)
        (some (buildPlanMetaMap (some wPrevMeta)))
        (some (buildPlanStatusMap (some wPrevPlan)))).updatedSteps ↔
      wStep ∈ stepsOf (some wCurPlan) ∧
      ∃ sid current, wStep.id = some sid ∧
        kvGet (buildPlanMetaMap (some wCurMeta)) sid = some current ∧
        (kvGet (buildPlanMetaMap (some wPrevMeta)) sid = none ∨
          ∃ previous, kvGet (buildPlanMetaMap (some wPrevMeta)) sid = some previous ∧
            previous < current ∧
            ¬((some (buildPlanStatusMap (some wPrevPlan))).bind
                  (fun m => kvGet m sid) = some "blocked" ∧
              kvGet (buildPlanStatusMap (some wCurPlan)) sid = some "pending")) :=
  claim2_delta_characterization (some wCurPlan) (some wCurMeta)
    (buildPlanMetaMap (some wPrevMeta))
    (some (buildPlanStatusMap (some wPrevPlan))) wStep

/-- C3 counterexample: a step whose status transitions from blocked to
pending appears in the computed delta when the previous snapshot carried
no parsed timestamp for it. -/
theorem claim3_counterexample :
    ceStep ∈ (getUpdatedPlanSteps (some ceCurPlan) (some ceCurMeta)
        (some (buildPlanMetaMap (some cePrevMeta)))
        (some (buildPlanStatusMap (some cePrevPlan)))).updatedSteps ∧
    kvGet (buildPlanStatusMap (some cePrevPlan)) "a" = some "blocked" ∧
    kvGet (buildPlanStatusMap (some ceCurPlan)) "a" = some "pending" := by decide

/-- C3 (amended): provided the step has a parsed timestamp in both the
previous and the current meta maps, a step transitioning from blocked to
pending never appears in the computed delta, and a step of the current
plan whose timestamp strictly increased and whose status went from
pending to in_progress always appears. -/
theorem claim3_suppression (plan planMetaData : Option PlanData)
    (prevMeta : MetaMap) (prevStatus : StatusMap) (step : PlanStep)
    (sid : String) (current previous : Int)
    (hid : step.id = some sid)
    (hcur : kvGet (buildPlanMetaMap planMetaData) sid = some current)
    (hprev : kvGet prevMeta sid = some previous) :
    (kvGet prevStatus sid = some "blocked" →
      kvGet (buildPlanStatusMap plan) sid = some "pending" →
      step ∉ (getUpdatedPlanSteps plan planMetaData (some prevMeta)
        (some prevStatus)).updatedSteps) ∧
    (step ∈ stepsOf plan → previous < current →
      kvGet prevStatus sid = some "pending" →
      kvGet (buildPlanStatusMap plan) sid = some "in_progress" →
      step ∈ (getUpdatedPlanSteps plan planMetaData (some prevMeta)
        (some prevStatus)).updatedSteps) := by
  have hrepr : (getUpdatedPlanSteps plan planMetaData (some prevMeta)
      (some prevStatus)).updatedSteps =
      (stepsOf plan).filter
        (planStepUpdated (buildPlanMetaMap planMetaData)
          (buildPlanStatusMap plan) prevMeta (some prevStatus)) := rfl
  constructor
  · intro hb hp hmem
    rw [hrepr, List.mem_filter, planStepUpdated_eq_true_iff] at hmem
    obtain ⟨_, sid2, cur2, hid2, hcur2, hrest⟩ := hmem
    rw [hid] at hid2
    injection hid2 with hsid
    subst hsid
    rcases hrest with hnone | ⟨previous2, hprev2, _, hnot⟩
    · rw [hprev] at hnone
      cases hnone
    · apply hnot
      constructor
      · rw [Option.some_bind, hb]
      · exact hp
  · intro hsteps hlt hps hcs
    rw [hrepr, List.mem_filter, planStepUpdated_eq_true_iff]
    refine ⟨hsteps, sid, current, hid, hcur, Or.inr ⟨previous, hprev, hlt, ?_⟩⟩
    intro hcontra
    obtain ⟨h1, h2⟩ := hcontra
    rw [Option.some_bind, hps] at h1
    simp at h1

/-- Witness for C3 at the concrete witness snapshots: step b has parsed
timestamps 100 and 200 on the two sides. -/
theorem claim3_witness :
    (kvGet (buildPlanStatusMap (some wPrevPlan)) "b" = some "blocked" →
      kvGet (buildPlanStatusMap (some wCurPlan)) "b" = some "pending" →
      wStep ∉ (getUpdatedPlanSteps (some wCurPlan) (some wCurMeta)
        (some (buildPlanMetaMap (some wPrevMeta)))
        (some (buildPlanStatusMap (some wPrevPlan)))).updatedSteps) ∧
    (wStep ∈ stepsOf (some wCurPlan) → (100 : Int) < 200 →
      kvGet (buildPlanStatusMap (some wPrevPlan)) "b" = some "pending" →
      kvGet (buildPlanStatusMap (some wCurPlan)) "b" = some "in_progress" →
      wStep ∈ (getUpdatedPlanSteps (some wCurPlan) (some wCurMeta)
        (some (buildPlanMetaMap (some wPrevMeta)))
        (some (buildPlanStatusMap (some wPrevPlan)))).updatedSteps) :=
  claim3_suppression (some wCurPlan) (some wCurMeta)
    (buildPlanMetaMap (some wPrevMeta)) (buildPlanStatusMap (some wPrevPlan))
    wStep "b" 200 100 (by decide) (by decide) (by decide)

/-- C10: with no previous meta map the computed delta is empty, and a step
can appear in the delta only with a non-null id and an entry in the plan
meta data carrying a parseable last_updated timestamp. -/
theorem claim10_empty_delta_and_parseable (plan planMetaData : Option PlanData)
    (previousStatusMap : Option StatusMap) :
    (getUpdatedPlanSteps plan planMetaData none previousStatusMap).updatedSteps = [] ∧
    ∀ (previousMetaMap : MetaMap) (step : PlanStep),
      step ∈ (getUpdatedPlanSteps plan planMetaData (some previousMetaMap)
        previousStatusMap).updatedSteps →
      step.id ≠ none ∧
      ∃ sid, step.id = some sid ∧
        ∃ e ∈ stepsOf planMetaData, e.id = some sid ∧
          parsePlanMetaTimestamp e.last_updated ≠ none := by
  constructor
  · rfl
  · intro prevMeta step hmem
    have hrepr : (getUpdatedPlanSteps plan planMetaData (some prevMeta)
        previousStatusMap).updatedSteps =
        (stepsOf plan).filter
          (planStepUpdated (buildPlanMetaMap planMetaData)
            (buildPlanStatusMap plan) prevMeta previousStatusMap) := rfl
    rw [hrepr, List.mem_filter, planStepUpdated_eq_true_iff] at hmem
    obtain ⟨_, sid, current, hid, hcur, _⟩ := hmem
    refine ⟨by rw [hid]; simp, sid, hid, ?_⟩
    have hbuild := kvGet_buildPlanMetaMapGo (stepsOf planMetaData) [] sid current hcur
    rcases hbuild with ⟨e, he, heid, hets⟩ | habs
    · exact ⟨e, he, heid, by rw [hets]; simp⟩
    · cases habs

/-- Witness for C10: an instantiation at the concrete witness snapshots,
with step b a member of the computed delta. -/
theorem claim10_witness :
    (getUpdatedPlanSteps (some wCurPlan) (some wCurMeta) none
        (some (buildPlanStatusMap (some wPrevPlan)))).updatedSteps = [] ∧
    (wStep.id ≠ none ∧
      ∃ sid, wStep.id = some sid ∧
        ∃ e ∈ stepsOf (some wCurMeta), e.id = some sid ∧
          parsePlanMetaTimestamp e.last_updated ≠ none) :=
  ⟨(claim10_empty_delta_and_parseable (some wCurPlan) (some wCurMeta)
      (some (buildPlanStatusMap (some wPrevPlan)))).1,
   (claim10_empty_delta_and_parseable (some wCurPlan) (some wCurMeta)
      (some (buildPlanStatusMap (some wPrevPlan)))).2
     (buildPlanMetaMap (some wPrevMeta)) wStep (by decide)⟩

/-- C4: a history_reset event replaces the message list with exactly the
(projected) list carried by the event, independent of the previous list,
while a message_update event preserves the previous list as a prefix and
appends the event messages after it. -/
theorem claim4_reset_replaces_update_appends
    (threadId : String) (hthread : threadId ≠ "")
    (s : ClientState) (eventMsgs : List EventMsg) :
    (handleEventData (.history_reset eventMsgs) threadId s).messages =
      eventMsgs.map normalizeEventMsg ∧
    (handleEventData (.message_update eventMsgs) threadId s).messages =
      s.messages ++ eventMsgs.map normalizeEventMsg := by
  have h : (threadId == "") = false := beq_eq_false_iff_ne.mpr hthread
  constructor <;> simp [handleEventData, h]

/-- Witness for C4 at a concrete state and event payload. -/
theorem claim4_witness :
    (handleEventData (.history_reset wEventMsgs) "t1"
        { baseClientState with messages := [wUserMsg] }).messages =
      wEventMsgs.map normalizeEventMsg ∧
    (handleEventData (.message_update wEventMsgs) "t1"
        { baseClientState with messages := [wUserMsg] }).messages =
      ({ baseClientState with messages := [wUserMsg] } : ClientState).messages ++
        wEventMsgs.map normalizeEventMsg :=
  claim4_reset_replaces_update_appends "t1" (by decide)
    { baseClientState with messages := [wUserMsg] } wEventMsgs

/-- C5: a rewind_update event rewrites the message list pointwise; an
end-user message with a numeric index ends with can_rewind_before true
exactly when its index is in the rewindable set, every other message is
left unchanged, and the rewind affordance is shown only for end-user
messages whose flag is true. -/
theorem claim5_rewind_update_eligibility
    (threadId : String) (hthread : threadId ≠ "")
    (s : ClientState) (indices : List Int) :
    (handleEventData (.rewind_update indices) threadId s).messages =
      s.messages.map (applyRewindUpdate indices) ∧
    (∀ (m : Msg) (k : Int), m.name = "user" → m.message_index = some k →
      ((applyRewindUpdate indices m).can_rewind_before = true ↔ k ∈ indices)) ∧
    (∀ m : Msg, m.name ≠ "user" ∨ m.message_index = none →
      applyRewindUpdate indices m = m) ∧
    (∀ m : Msg, canRewind m = true ↔ (m.name = "user" ∧ m.can_rewind_before = true)) := by
  have h : (threadId == "") = false := beq_eq_false_iff_ne.mpr hthread
  refine ⟨by simp [handleEventData, h], ?_, ?_, ?_⟩
  · intro m k hname hidx
    simp [applyRewindUpdate, hidx, hname]
  · intro m hm
    rcases hm with hname | hidx
    · cases hidx2 : m.message_index with
      | none => simp [applyRewindUpdate, hidx2]
      | some k => simp [applyRewindUpdate, hidx2, beq_eq_false_iff_ne.mpr hname]
    · simp [applyRewindUpdate, hidx]
  · intro m
    simp [canRewind]

/-- Witness for C5 at a concrete state and rewindable-index set. -/
theorem claim5_witness :
    (handleEventData (.rewind_update [2, 5]) "t1"
        { baseClientState with messages := [wUserMsg, wOrchMsg] }).messages =
      ({ baseClientState with messages := [wUserMsg, wOrchMsg] } : ClientState).messages.map
        (applyRewindUpdate [2, 5]) ∧
    (∀ (m : Msg) (k : Int), m.name = "user" → m.message_index = some k →
      ((applyRewindUpdate [2, 5] m).can_rewind_before = true ↔ k ∈ [2, 5])) ∧
    (∀ m : Msg, m.name ≠ "user" ∨ m.message_index = none →
      applyRewindUpdate [2, 5] m = m) ∧
    (∀ m : Msg, canRewind m = true ↔ (m.name = "user" ∧ m.can_rewind_before = true)) :=
  claim5_rewind_update_eligibility "t1" (by decide)
    { baseClientState with messages := [wUserMsg, wOrchMsg] } [2, 5]

theorem setThreadLoading_false_eq (l : List String) (t : String) (ht : t ≠ "") :
    setThreadLoading l t false = l.filter (fun x => x != t) := by
  unfold setThreadLoading
  rw [if_neg (by simp [ht]), if_neg (by simp)]

theorem notMem_setThreadLoading_false (l : List String) (t : String) (ht : t ≠ "") :
    t ∉ setThreadLoading l t false := by
  rw [setThreadLoading_false_eq l t ht]
  intro hmem
  rw [List.mem_filter] at hmem
  simp at hmem

theorem releaseActiveRunIfMatches_clear (ar : ActiveRunView) (t : String)
    (h : ar.threadId = some t) :
    releaseActiveRunIfMatches ar t = { threadId := none, name := none } := by
  unfold releaseActiveRunIfMatches
  rw [if_pos (by simp [h])]

theorem releaseActiveRunIfMatches_keep (ar : ActiveRunView) (t : String)
    (h : ar.threadId ≠ some t) :
    releaseActiveRunIfMatches ar t = ar := by
  unfold releaseActiveRunIfMatches
  rw [if_neg (by simp [h])]

theorem handleEventData_done_parts (t : String) (ht : (t == "") = false)
    (s : ClientState) :
    (handleEventData .done t s).loading = setThreadLoading s.loading t false ∧
    (handleEventData .done t s).activeRun =
      releaseActiveRunIfMatches s.activeRun t := by
  unfold handleEventData
  rw [if_neg (by simp_all)]
  by_cases hse : s.streamError = true <;> simp [hse]

/-- C6: evaluation at the failing input.  After a rewind_status pending
event for thread t1 (a rewind started elsewhere), the recorded status of
the selected thread is pending, yet the rewind gate stays enabled and
confirmRewindEdit issues the rewind request, which on success marks t1
loading and schedules a history reload: the client allowed a second
rewind while the status was pending. -/
theorem claim6_pending_does_not_block_rewind :
    currentRewindStatus
        (handleEventData (.rewind_status (some "pending")) "t1" baseClientState) =
      some "pending" ∧
    rewindDisabled
        (handleEventData (.rewind_status (some "pending")) "t1" baseClientState) =
      false ∧
    (confirmRewindEdit
        (handleEventData (.rewind_status (some "pending")) "t1" baseClientState)
        (some 2) "retry" (.ok none)).actions = ["reloadHistory"] ∧
    (confirmRewindEdit
        (handleEventData (.rewind_status (some "pending")) "t1" baseClientState)
        (some 2) "retry" (.ok none)).state.loading = ["t1"] := by decide

/-- C7 counterexample: an error event for thread t1 while the active-run
view names t1 clears the loading mark but leaves the active-run view
naming t1, contradicting the claim that any terminal event clears it. -/
theorem claim7_counterexample :
    activeRunState.activeRun.threadId = some "t1" ∧
    (handleEventData (.error (some "boom")) "t1" activeRunState).activeRun =
      { threadId := some "t1", name := some "run one" } := by decide

/-- C7 (amended): done and interrupted events clear the loading mark of
the thread and clear the active-run view exactly when it names that
thread; an error event clears the loading mark but leaves the active-run
view unchanged (the view is refreshed by the separate active-run
broadcast stream). -/
theorem claim7_terminal_events (threadId : String) (hthread : threadId ≠ "")
    (s : ClientState) (msg : Option String) :
    threadId ∉ (handleEventData .interrupted threadId s).loading ∧
    (s.activeRun.threadId = some threadId →
      (handleEventData .interrupted threadId s).activeRun =
        { threadId := none, name := none }) ∧
    (s.activeRun.threadId ≠ some threadId →
      (handleEventData .interrupted threadId s).activeRun = s.activeRun) ∧
    threadId ∉ (handleEventData .done threadId s).loading ∧
    (s.activeRun.threadId = some threadId →
      (handleEventData .done threadId s).activeRun =
        { threadId := none, name := none }) ∧
    (s.activeRun.threadId ≠ some threadId →
      (handleEventData .done threadId s).activeRun = s.activeRun) ∧
    threadId ∉ (handleEventData (.error msg) threadId s).loading ∧
    (handleEventData (.error msg) threadId s).activeRun = s.activeRun := by
  have h : (threadId == "") = false := beq_eq_false_iff_ne.mpr hthread
  have hint : handleEventData .interrupted threadId s =
      { s with loading := setThreadLoading s.loading threadId false,
               activeRun := releaseActiveRunIfMatches s.activeRun threadId } := by
    unfold handleEventData
    rw [if_neg (by simp_all)]
  have herr : handleEventData (.error msg) threadId s =
      { s with streamError := true,
               errorMsg := errorTextOrDefault msg,
               loading := setThreadLoading s.loading threadId false } := by
    unfold handleEventData
    rw [if_neg (by simp_all)]
  obtain ⟨hdl, hda⟩ := handleEventData_done_parts threadId h s
  refine ⟨?_, ?_, ?_, ?_, ?_, ?_, ?_, ?_⟩
  · rw [hint]; exact notMem_setThreadLoading_false s.loading threadId hthread
  · intro hm; rw [hint]; exact releaseActiveRunIfMatches_clear s.activeRun threadId hm
  · intro hm; rw [hint]; exact releaseActiveRunIfMatches_keep s.activeRun threadId hm
  · rw [hdl]; exact notMem_setThreadLoading_false s.loading threadId hthread
  · intro hm; rw [hda]; exact releaseActiveRunIfMatches_clear s.activeRun threadId hm
  · intro hm; rw [hda]; exact releaseActiveRunIfMatches_keep s.activeRun threadId hm
  · rw [herr]; exact notMem_setThreadLoading_false s.loading threadId hthread
  · rw [herr]

/-- Witness for C7 at a concrete state in which the active run names the
thread of the events. -/
theorem claim7_witness :
    "t1" ∉ (handleEventData .interrupted "t1" activeRunState).loading ∧
    (activeRunState.activeRun.threadId = some "t1" →
      (handleEventData .interrupted "t1" activeRunState).activeRun =
        { threadId := none, name := none }) ∧
    (activeRunState.activeRun.threadId ≠ some "t1" →
      (handleEventData .interrupted "t1" activeRunState).activeRun =
        activeRunState.activeRun) ∧
    "t1" ∉ (handleEventData .done "t1" activeRunState).loading ∧
    (activeRunState.activeRun.threadId = some "t1" →
      (handleEventData .done "t1" activeRunState).activeRun =
        { threadId := none, name := none }) ∧
    (activeRunState.activeRun.threadId ≠ some "t1" →
      (handleEventData .done "t1" activeRunState).activeRun =
        activeRunState.activeRun) ∧
    "t1" ∉ (handleEventData (.error (some "boom")) "t1" activeRunState).loading ∧
    (handleEventData (.error (some "boom")) "t1" activeRunState).activeRun =
      activeRunState.activeRun :=
  claim7_terminal_events "t1" (by decide) activeRunState (some "boom")

/-- C8: a 409 on the chat request or on the rewind request whose payload
carries a truthy blocking thread id makes the client adopt the blocking
identity in its active-run view, surface the Run-is-already-running
banner naming the blocking run, and issue no follow-up request (nothing
queued, nothing retried). -/
theorem claim8_conflict_surfacing (s : ClientState) (prompt draft : String)
    (d : ConflictDetail) (tid threadId : String) (mi : Int)
    (hload : isLoading s = false) (hblock : blockNewMessages s = false)
    (hrw : s.isRewinding = false)
    (hsel : s.selectedThreadId = some threadId)
    (ht1 : threadId ≠ "") (ht2 : threadId ≠ "-1")
    (hprompt : jsTrim prompt ≠ "") (hdraft : jsTrim draft ≠ "")
    (htid : d.active_thread_id = some tid) (htidne : tid ≠ "") :
    ((sendMessage s prompt (.conflict d)).state.activeRun =
        { threadId := some tid, name := d.active_run_name } ∧
      (sendMessage s prompt (.conflict d)).state.errorMsg =
        "Run " ++ busyLabel d ++ " is already running." ∧
      (sendMessage s prompt (.conflict d)).actions = []) ∧
    ((confirmRewindEdit s (some mi) draft (.conflict d)).state.activeRun =
        { threadId := some tid, name := d.active_run_name } ∧
      (confirmRewindEdit s (some mi) draft (.conflict d)).state.rewindError =
        "Run " ++ busyLabel d ++ " is already running." ∧
      (confirmRewindEdit s (some mi) draft (.conflict d)).actions = []) ∧
    (busyLabel d = tid ∨
      ∃ n, d.active_run_name = some n ∧ busyLabel d = jsTrim n) := by
  have hrd : rewindDisabled s = false := by simp [rewindDisabled, hload, hblock]
  have hpr : (jsTrim prompt == "") = false := beq_eq_false_iff_ne.mpr hprompt
  have hdr : (jsTrim draft == "") = false := beq_eq_false_iff_ne.mpr hdraft
  have htb : (tid != "") = true := by simp [htidne]
  refine ⟨?_, ?_, ?_⟩
  · simp [sendMessage, hload, hblock, hpr, applyConflictActiveRun, htid, htb]
  · simp [confirmRewindEdit, hrd, hrw, hsel,
      beq_eq_false_iff_ne.mpr ht1, beq_eq_false_iff_ne.mpr ht2, hdr,
      applyConflictActiveRun, htid, htb]
  · unfold busyLabel
    cases hname : d.active_run_name with
    | none =>
      left
      simp [busyLabelFallback, htid, htb]
    | some n =>
      by_cases hnt : jsTrim n = ""
      · left
        simp [hnt, busyLabelFallback, htid, htb]
      · right
        exact ⟨n, rfl, by simp [hnt]⟩

/-- Witness for C8 at a concrete quiescent state and conflict payload. -/
theorem claim8_witness :
    ((sendMessage baseClientState "hi"
        (.conflict ⟨some "t2", some "runX"⟩)).state.activeRun =
        { threadId := some "t2", name := some "runX" } ∧
      (sendMessage baseClientState "hi"
        (.conflict ⟨some "t2", some "runX"⟩)).state.errorMsg =
        "Run " ++ busyLabel ⟨some "t2", some "runX"⟩ ++ " is already running." ∧
      (sendMessage baseClientState "hi"
        (.conflict ⟨some "t2", some "runX"⟩)).actions = []) ∧
    ((confirmRewindEdit baseClientState (some 2) "retry"
        (.conflict ⟨some "t2", some "runX"⟩)).state.activeRun =
        { threadId := some "t2", name := some "runX" } ∧
      (confirmRewindEdit baseClientState (some 2) "retry"
        (.conflict ⟨some "t2", some "runX"⟩)).state.rewindError =
        "Run " ++ busyLabel ⟨some "t2", some "runX"⟩ ++ " is already running." ∧
      (confirmRewindEdit baseClientState (some 2) "retry"
        (.conflict ⟨some "t2", some "runX"⟩)).actions = []) ∧
    (busyLabel ⟨some "t2", some "runX"⟩ = "t2" ∨
      ∃ n, (some "runX" : Option String) = some n ∧
        busyLabel ⟨some "t2", some "runX"⟩ = jsTrim n) :=
  claim8_conflict_surfacing baseClientState "hi" "retry"
    ⟨some "t2", some "runX"⟩ "t2" "t1" 2
    (by decide) (by decide) (by decide) (by decide) (by decide) (by decide)
    (by decide) (by decide) (by decide) (by decide)

/-- C9 counterexample: a chat request answered with a 409 conflict leaves
the optimistically appended user message in the list, so the message list
is not identical before and after the failed request. -/
theorem claim9_counterexample :
    (sendMessage baseClientState "hi"
        (.conflict ⟨some "t2", some "runX"⟩)).state.messages ≠
      baseClientState.messages := by decide

/-- C9 (amended): a rewind request answered with a 409 performs no
mutation of the message list; a chat request answered with a 409 leaves
the message list equal to the previous list plus the optimistically
appended user message, its only mutation. -/
theorem claim9_conflict_messages (s : ClientState) (prompt draft : String)
    (d : ConflictDetail) (threadId : String) (mi : Int)
    (hload : isLoading s = false) (hblock : blockNewMessages s = false)
    (hrw : s.isRewinding = false)
    (hsel : s.selectedThreadId = some threadId)
    (ht1 : threadId ≠ "") (ht2 : threadId ≠ "-1")
    (hprompt : jsTrim prompt ≠ "") (hdraft : jsTrim draft ≠ "") :
    (sendMessage s prompt (.conflict d)).state.messages =
      s.messages ++ [userMessage prompt] ∧
    (confirmRewindEdit s (some mi) draft (.conflict d)).state.messages =
      s.messages := by
  have hrd : rewindDisabled s = false := by simp [rewindDisabled, hload, hblock]
  have hpr : (jsTrim prompt == "") = false := beq_eq_false_iff_ne.mpr hprompt
  have hdr : (jsTrim draft == "") = false := beq_eq_false_iff_ne.mpr hdraft
  constructor
  · simp [sendMessage, hload, hblock, hpr, applyConflictActiveRun]
    cases htid : d.active_thread_id with
    | none => simp
    | some t => by_cases ht : t = "" <;> simp [ht]
  · simp [confirmRewindEdit, hrd, hrw, hsel,
      beq_eq_false_iff_ne.mpr ht1, beq_eq_false_iff_ne.mpr ht2, hdr,
      applyConflictActiveRun]
    cases htid : d.active_thread_id with
    | none => simp
    | some t => by_cases ht : t = "" <;> simp [ht]

/-- Witness for C9 at a concrete quiescent state and conflict payload. -/
theorem claim9_witness :
    (sendMessage baseClientState "hi"
        (.conflict ⟨some "t2", some "runX"⟩)).state.messages =
      baseClientState.messages ++ [userMessage "hi"] ∧
    (confirmRewindEdit baseClientState (some 2) "retry"
        (.conflict ⟨some "t2", some "runX"⟩)).state.messages =
      baseClientState.messages :=
  claim9_conflict_messages baseClientState "hi" "retry"
    ⟨some "t2", some "runX"⟩ "t1" 2
    (by decide) (by decide) (by decide) (by decide) (by decide) (by decide)
    (by decide) (by decide)
